import Mathlib

/-!
Verification of the Product Store Service (tdd-bdd-final-project).

The HTTP routing layer is embedded from `src/service/routes.py`.  The entity
model (`service/models.py`: the `Product` record, the `Category` enumeration,
`serialize`/`deserialize` and the persistence operations) is not among the
sources, only its tests and callers are; those parts are modelled from the
specification (spec.md sections 3, 4.1, 4.2 and 7) and are marked as such.
-/

set_option maxRecDepth 4096

namespace ProductStore

/-- A JSON value, the transmissible representation used for request and
response bodies. -/
inductive Json where
  | str (s : String)
  | num (n : Int)
  | bool (b : Bool)
  | null
  | arr (xs : List Json)
  | obj (kvs : List (String × Json))
  deriving Repr, BEq

/-- A request payload: the mapping of field names to JSON values obtained
from the request body. -/
abbrev Payload := List (String × Json)

/-- Modelled from the spec: the `Category` enumeration of `service/models.py`
is not among the sources.  Spec section 3 gives the closed member set
UNKNOWN, CLOTHS, FOOD, HOUSEWARES, AUTOMOTIVE, TOOLS (the tests exercise
CLOTHS, FOOD, HOUSEWARES and TOOLS). -/
inductive Category where
  | UNKNOWN
  | CLOTHS
  | FOOD
  | HOUSEWARES
  | AUTOMOTIVE
  | TOOLS
  deriving Repr, DecidableEq, BEq

/-- The canonical (upper-case) member name of a category, as produced by
serialization. -/
def Category.name : Category → String
  | .UNKNOWN => "UNKNOWN"
  | .CLOTHS => "CLOTHS"
  | .FOOD => "FOOD"
  | .HOUSEWARES => "HOUSEWARES"
  | .AUTOMOTIVE => "AUTOMOTIVE"
  | .TOOLS => "TOOLS"

/-- Resolving a text token to an enumeration member: the embedding of the
dynamic attribute lookup `getattr(Category, s)` (routes.py line 124); only
the member names resolve, every other token fails (`AttributeError`). -/
def categoryFromName? : String → Option Category
  | "UNKNOWN" => some .UNKNOWN
  | "CLOTHS" => some .CLOTHS
  | "FOOD" => some .FOOD
  | "HOUSEWARES" => some .HOUSEWARES
  | "AUTOMOTIVE" => some .AUTOMOTIVE
  | "TOOLS" => some .TOOLS
  | _ => none

/-- Modelled from the spec: the `Product` record of `service/models.py` is
not among the sources.  Spec section 3: `id` is an integer identifier,
absent (`None`) before persistence; `price` is a fixed-precision decimal,
transmitted as a decimal string, modelled here by that string. -/
structure Product where
  id : Option Nat
  name : String
  description : String
  price : String
  available : Bool
  category : Category
  deriving Repr, DecidableEq, BEq

/-- A freshly constructed `Product()` before deserialization: no field set. -/
def Product.empty : Product :=
  { id := none, name := "", description := "", price := "", available := false,
    category := .UNKNOWN }

/-- Modelled from the spec: `serialize()` of `service/models.py` is not among
the sources.  Spec section 4.1: a mapping with keys id, name, description,
price (as decimal string), available, category (as enumeration member
name). -/
def Product.serialize (p : Product) : Json :=
  .obj [("id", match p.id with | some i => .num i | none => .null),
        ("name", .str p.name),
        ("description", .str p.description),
        ("price", .str p.price),
        ("available", .bool p.available),
        ("category", .str p.category.name)]

/-- A validation failure raised by deserialization, carrying a
human-readable message naming the offending field or value. -/
inductive ValidationErr where
  | missing (key : String)
  | badType (key : String)
  | badCategory (value : String)
  deriving Repr, DecidableEq

/-- The human-readable message of a validation failure. -/
def ValidationErr.message : ValidationErr → String
  | .missing k => "Invalid product: missing " ++ k
  | .badType k => "Invalid type for field " ++ k
  | .badCategory v => "Invalid category: " ++ v

/-- Field names a payload must supply for deserialization to succeed. -/
def requiredKeys : List String :=
  ["name", "description", "price", "available", "category"]

/-- Reads a required text field from the payload. -/
def getStr (data : Payload) (key : String) : Except ValidationErr String :=
  match data.lookup key with
  | none => .error (.missing key)
  | some (.str s) => .ok s
  | some _ => .error (.badType key)

/-- Reads the required boolean field from the payload; present but not
boolean is a type mismatch distinct from a missing key. -/
def getBool (data : Payload) (key : String) : Except ValidationErr Bool :=
  match data.lookup key with
  | none => .error (.missing key)
  | some (.bool b) => .ok b
  | some _ => .error (.badType key)

/-- Reads the required price field; a decimal string or a number parses
into the decimal representation, anything else is a type mismatch. -/
def getPrice (data : Payload) : Except ValidationErr String :=
  match data.lookup "price" with
  | none => .error (.missing "price")
  | some (.str s) => .ok s
  | some (.num n) => .ok (toString n)
  | some _ => .error (.badType "price")

/-- Reads the required category field; the token must textually match a
member of the enumeration, an unrecognized value is a validation failure
listing the offending value. -/
def getCategory (data : Payload) : Except ValidationErr Category :=
  match data.lookup "category" with
  | none => .error (.missing "category")
  | some (.str s) =>
      match categoryFromName? s with
      | some c => .ok c
      | none => .error (.badCategory s)
  | some _ => .error (.badType "category")

/-- Modelled from the spec: `deserialize(payload)` of `service/models.py` is
not among the sources.  Spec section 4.1: every field of `requiredKeys` must
be present and well-typed, failures carry the offending field or value, the
target entity is never partially mutated on failure, and the entity's `id`
is not taken from the payload. -/
def deserialize (p : Product) (data : Payload) : Except ValidationErr Product :=
  match getStr data "name" with
  | .error e => .error e
  | .ok name =>
  match getStr data "description" with
  | .error e => .error e
  | .ok description =>
  match getPrice data with
  | .error e => .error e
  | .ok price =>
  match getBool data "available" with
  | .error e => .error e
  | .ok available =>
  match getCategory data with
  | .error e => .error e
  | .ok category =>
    .ok { p with name := name, description := description, price := price,
                 available := available, category := category }

/-- Modelled from the spec: the persistence gateway of `service/models.py`
is not among the sources.  Spec section 6: one table keyed by an
auto-increment integer primary key, modelled as the stored rows plus the
next id the store will assign. -/
structure Store where
  products : List Product
  nextId : Nat
  deriving Repr, DecidableEq

/-- Gateway `all()`: every row, in store-native order. -/
def Store.all (s : Store) : List Product := s.products

/-- Gateway `find(id)`: the entity matching the id, or an explicit not-found
sentinel; never raises for absence. -/
def Store.find (s : Store) (pid : Nat) : Option Product :=
  s.products.find? (fun p => p.id == some pid)

/-- Gateway `create(entity)`: assigns the next unique id and persists all
fields; returns the updated store and the persisted entity. -/
def Store.createProduct (s : Store) (p : Product) : Store × Product :=
  let saved := { p with id := some s.nextId }
  ({ products := s.products ++ [saved], nextId := s.nextId + 1 }, saved)

/-- Gateway `update(entity)`: replaces all fields of the row matching the
entity's id. -/
def Store.updateProduct (s : Store) (p : Product) : Store :=
  { s with products := s.products.map (fun q => if q.id == p.id then p else q) }

/-- Gateway `delete(entity)`: removes the row matching the entity's primary
key. -/
def Store.deleteProduct (s : Store) (pid : Nat) : Store :=
  { s with products := s.products.filter (fun p => !(p.id == some pid)) }

/-- An HTTP response: status code, optional JSON body (deleted products get
an empty body), optional Location header. -/
structure Response where
  status : Nat
  body : Option Json
  location : Option String
  deriving Repr

/-- A 200 response carrying a JSON body. -/
def Response.okJson (v : Json) : Response :=
  { status := 200, body := some v, location := none }

/-- A 400 response carrying an error message. -/
def Response.badRequest (msg : String) : Response :=
  { status := 400, body := some (.str msg), location := none }

/-- A 404 response carrying an error message. -/
def Response.notFound (msg : String) : Response :=
  { status := 404, body := some (.str msg), location := none }

/-- The 415 response of `check_content_type` (routes.py lines 55 to 71). -/
def Response.unsupportedMedia : Response :=
  { status := 415, body := some (.str "Content-Type must be application/json"),
    location := none }

/-- The query parameters of a GET /products request, each `none` when the
parameter is not supplied (`request.args.get` returns `None`). -/
structure ListQuery where
  name : Option String
  category : Option String
  available : Option String
  deriving Repr, DecidableEq

/-- Upper-casing of a token, the embedding of Python `str.upper()` as used
on the category query parameter (routes.py line 124). -/
def strUpper (s : String) : String := ⟨s.data.map Char.toUpper⟩

/-- Lower-casing of a token, the embedding of Python `str.lower()` as used
on the availability query parameter (routes.py lines 135 and 137). -/
def strLower (s : String) : String := ⟨s.data.map Char.toLower⟩

/-- The embedding of `check_content_type` (routes.py lines 55 to 71): true
exactly when the Content-Type header is present and equals the expected
media type; the caller aborts with 415 otherwise. -/
def check_content_type (hdr : Option String) (content_type : String) : Bool :=
  match hdr with
  | none => false
  | some h => h == content_type

/-- The `if name:` filter step of `get_products` (routes.py lines 117 to
119): a missing or empty (falsy) parameter leaves the listing unchanged,
otherwise the listing is narrowed by exact name equality. -/
def filterByName (name : Option String) (ps : List Product) : List Product :=
  match name with
  | none => ps
  | some n => if n = "" then ps else ps.filter (fun p => p.name == n)

/-- The `if category_str:` step of `get_products` (routes.py lines 121 to
130): the token is upper-cased and resolved against the enumeration; an
unresolvable token aborts with 400 (`AttributeError` branch). -/
def filterByCategory (category_str : Option String) (ps : List Product) :
    Except Response (List Product) :=
  match category_str with
  | none => .ok ps
  | some c =>
      if c = "" then .ok ps
      else
        match categoryFromName? (strUpper c) with
        | some category => .ok (ps.filter (fun p => p.category == category))
        | none => .error (Response.badRequest ("Invalid category: " ++ c))

/-- The token sets of the availability parse (routes.py lines 135 and 137). -/
def truthyTokens : List String := ["true", "t", "1", "yes"]

/-- The falsy token set of the availability parse (routes.py line 137). -/
def falsyTokens : List String := ["false", "f", "0", "no"]

/-- Parses a lower-cased availability token (routes.py lines 134 to 143):
a truthy token gives true, a falsy token gives false, anything else is
rejected. -/
def parseAvailable (s : String) : Option Bool :=
  if s ∈ truthyTokens then some true
  else if s ∈ falsyTokens then some false
  else none

/-- The `if available_str:` step of `get_products` (routes.py lines 132 to
144): the token is lower-cased and parsed; an unrecognized token aborts
with 400, otherwise the listing is narrowed by the parsed flag. -/
def filterByAvailable (available_str : Option String) (ps : List Product) :
    Except Response (List Product) :=
  match available_str with
  | none => .ok ps
  | some a =>
      if a = "" then .ok ps
      else
        match parseAvailable (strLower a) with
        | some available => .ok (ps.filter (fun p => p.available == available))
        | none =>
            .error (Response.badRequest ("Invalid value for available: " ++ a))

/-- The embedding of `get_products` (routes.py lines 105 to 147): start from
all products, narrow by name, category and availability in that order, and
answer 200 with the serialized listing. -/
def get_products (store : Store) (q : ListQuery) : Response :=
  match filterByCategory q.category (filterByName q.name store.all) with
  | .error r => r
  | .ok ps =>
      match filterByAvailable q.available ps with
      | .error r => r
      | .ok ps => Response.okJson (.arr (ps.map Product.serialize))

/-- The embedding of `get_product` (routes.py lines 154 to 170): 404 when
the id does not resolve, otherwise 200 with the serialization. -/
def get_product (store : Store) (product_id : Nat) : Response :=
  match store.find product_id with
  | none => Response.notFound ("Product not found for id: " ++ toString product_id)
  | some found_product => Response.okJson found_product.serialize

/-- The embedding of `create_products` (routes.py lines 79 to 97): content
type is checked first (415), the body is deserialized into a fresh entity
(a validation failure surfaces as 400, the mapping modelled from spec
section 7), the entity is persisted and answered with 201 plus a Location
header for its read endpoint. -/
def create_products (store : Store) (hdr : Option String) (data : Payload) :
    Store × Response :=
  if !check_content_type hdr "application/json" then
    (store, Response.unsupportedMedia)
  else
    match deserialize Product.empty data with
    | .error e => (store, Response.badRequest e.message)
    | .ok product =>
        let (store, saved) := store.createProduct product
        (store,
          { status := 201, body := some saved.serialize,
            location := some ("/products/" ++ toString (saved.id.getD 0)) })

/-- The embedding of `update_product` (routes.py lines 177 to 218): the
not-found check comes first (404), then the content type check (415), then
deserialization onto the found entity (a validation failure surfaces as
400), then the full replacement is persisted and answered with 200. -/
def update_product (store : Store) (product_id : Nat) (hdr : Option String)
    (data : Payload) : Store × Response :=
  match store.find product_id with
  | none =>
      (store, Response.notFound ("Product not found for id: " ++ toString product_id))
  | some found_product =>
      if !check_content_type hdr "application/json" then
        (store, Response.unsupportedMedia)
      else
        match deserialize found_product data with
        | .error e => (store, Response.badRequest e.message)
        | .ok updated =>
            (store.updateProduct updated, Response.okJson updated.serialize)

/-- The embedding of `delete_product` (routes.py lines 225 to 241): 404 when
the id does not resolve, otherwise the row is removed and the response is
204 with an empty body. -/
def delete_product (store : Store) (product_id : Nat) : Store × Response :=
  match store.find product_id with
  | none =>
      (store, Response.notFound ("Product not found for id: " ++ toString product_id))
  | some _ =>
      (store.deleteProduct product_id,
        { status := 204, body := none, location := none })

/-! Spec-side formulation of the Query Filter (spec section 4.3), used to
compare the sequential narrowing of `get_products` against the spec's
conjunctive reading. -/

/-- Spec wording: the name criterion, when supplied and non-empty, is exact
text equality. -/
def nameMatches (name : Option String) (p : Product) : Bool :=
  match name with
  | none => true
  | some n => if n = "" then true else p.name == n

/-- Spec wording: the category criterion, when supplied and non-empty, is
membership of the product in the resolved category. -/
def catMatches (category_str : Option String) (p : Product) : Bool :=
  match category_str with
  | none => true
  | some c =>
      if c = "" then true
      else
        match categoryFromName? (strUpper c) with
        | some cat => p.category == cat
        | none => false

/-- Spec wording: the availability criterion, when supplied and non-empty,
is equality with the parsed boolean. -/
def availMatches (available_str : Option String) (p : Product) : Bool :=
  match available_str with
  | none => true
  | some a =>
      if a = "" then true
      else
        match parseAvailable (strLower a) with
        | some b => p.available == b
        | none => false

/-- Spec wording: criteria compose conjunctively (logical AND). -/
def specMatches (q : ListQuery) (p : Product) : Bool :=
  nameMatches q.name p && catMatches q.category p && availMatches q.available p

/-- A supplied category token is valid when empty (treated as absent) or
resolvable after upper-casing. -/
def categoryValid : Option String → Bool
  | none => true
  | some c => c == "" || (categoryFromName? (strUpper c)).isSome

/-- A supplied availability token is valid when empty (treated as absent)
or recognized after lower-casing. -/
def availableValid : Option String → Bool
  | none => true
  | some a => a == "" || (parseAvailable (strLower a)).isSome

/-- Normalization of a query parameter: an empty string is treated like an
absent parameter (Python truthiness of the `if name:` style guards). -/
def dropEmpty : Option String → Option String
  | none => none
  | some s => if s = "" then none else some s

/-! Concrete sample data, used by the witnesses. -/

/-- A sample stored product. -/
def fedora : Product :=
  { id := some 1, name := "Fedora", description := "A red hat",
    price := "12.50", available := true, category := .CLOTHS }

/-- A second sample stored product. -/
def hammer : Product :=
  { id := some 2, name := "Hammer", description := "A steel hammer",
    price := "9.99", available := false, category := .TOOLS }

/-- A sample store holding the two sample products. -/
def sampleStore : Store := { products := [fedora, hammer], nextId := 3 }

/-- A full valid payload. -/
def fullPayload : Payload :=
  [("name", .str "Bowler"), ("description", .str "A black hat"),
   ("price", .str "19.99"), ("available", .bool false),
   ("category", .str "CLOTHS")]

/-- A payload that omits the required name field. -/
def noNamePayload : Payload :=
  [("description", .str "A black hat"), ("price", .str "19.99"),
   ("available", .bool false), ("category", .str "CLOTHS")]

/-- The entity `fullPayload` deserializes to on a fresh product. -/
def bowler : Product :=
  { id := none, name := "Bowler", description := "A black hat",
    price := "19.99", available := false, category := .CLOTHS }

/-- The entity `fullPayload` deserializes to on top of `fedora`. -/
def updatedFedora : Product :=
  { id := some 1, name := "Bowler", description := "A black hat",
    price := "19.99", available := false, category := .CLOTHS }

lemma filterByName_eq (name : Option String) (ps : List Product) :
    filterByName name ps = ps.filter (nameMatches name) := by
  cases name with
  | none =>
      exact (List.filter_eq_self.mpr (fun a _ => rfl)).symm
  | some n =>
      by_cases h : n = ""
      · subst h
        exact (List.filter_eq_self.mpr (fun a _ => by simp [nameMatches])).symm
      · rw [filterByName]
        rw [if_neg h]
        exact List.filter_congr (fun a _ => by simp [nameMatches, h])

lemma filterByCategory_ok (c : Option String) (ps : List Product)
    (hc : categoryValid c = true) :
    filterByCategory c ps = .ok (ps.filter (catMatches c)) := by
  cases c with
  | none =>
      rw [filterByCategory]
      rw [(List.filter_eq_self.mpr (fun a _ => rfl) :
        ps.filter (catMatches none) = ps)]
  | some c =>
      by_cases h : c = ""
      · subst h
        rw [filterByCategory, if_pos rfl]
        rw [(List.filter_eq_self.mpr (fun a _ => by simp [catMatches]) :
          ps.filter (catMatches (some "")) = ps)]
      · simp only [categoryValid, Bool.or_eq_true, beq_iff_eq, h,
          false_or, Option.isSome_iff_exists] at hc
        obtain ⟨cat, hcat⟩ := hc
        rw [filterByCategory, if_neg h, hcat]
        dsimp only
        rw [List.filter_congr (fun a _ => by
          simp [catMatches, h, hcat] : ∀ a ∈ ps,
            (fun p => p.category == cat) a = catMatches (some c) a)]

lemma filterByAvailable_ok (a : Option String) (ps : List Product)
    (ha : availableValid a = true) :
    filterByAvailable a ps = .ok (ps.filter (availMatches a)) := by
  cases a with
  | none =>
      rw [filterByAvailable]
      rw [(List.filter_eq_self.mpr (fun x _ => rfl) :
        ps.filter (availMatches none) = ps)]
  | some a =>
      by_cases h : a = ""
      · subst h
        rw [filterByAvailable, if_pos rfl]
        rw [(List.filter_eq_self.mpr (fun x _ => by simp [availMatches]) :
          ps.filter (availMatches (some "")) = ps)]
      · simp only [availableValid, Bool.or_eq_true, beq_iff_eq, h,
          false_or, Option.isSome_iff_exists] at ha
        obtain ⟨b, hb⟩ := ha
        rw [filterByAvailable, if_neg h, hb]
        dsimp only
        rw [List.filter_congr (fun x _ => by
          simp [availMatches, h, hb] : ∀ x ∈ ps,
            (fun p => p.available == b) x = availMatches (some a) x)]

/-- The central refinement fact: whenever the supplied category and
availability tokens are valid, `get_products` answers 200 with exactly the
conjunctively filtered listing of spec section 4.3. -/
lemma get_products_eq_filter (store : Store) (q : ListQuery)
    (hc : categoryValid q.category = true)
    (ha : availableValid q.available = true) :
    get_products store q =
      Response.okJson (.arr ((store.products.filter (specMatches q)).map
        Product.serialize)) := by
  unfold get_products
  rw [filterByName_eq, filterByCategory_ok _ _ hc]
  dsimp only
  rw [filterByAvailable_ok _ _ ha]
  dsimp only [Store.all]
  rw [List.filter_filter, List.filter_filter]
  congr 2
  congr 1
  apply List.filter_congr
  intro x _
  simp only [specMatches]
  cases nameMatches q.name x <;> cases catMatches q.category x <;>
    cases availMatches q.available x <;> rfl

lemma parseAvailable_truthy (s : String) (h : s ∈ truthyTokens) :
    parseAvailable s = some true := by
  simp [parseAvailable, h]

lemma parseAvailable_falsy (s : String) (h : s ∈ falsyTokens) :
    parseAvailable s = some false := by
  have hnt : s ∉ truthyTokens := by
    simp only [falsyTokens, List.mem_cons, List.not_mem_nil, or_false] at h
    rcases h with rfl | rfl | rfl | rfl <;> decide
  simp [parseAvailable, hnt, h]

lemma parseAvailable_reject (s : String) (h1 : s ∉ truthyTokens)
    (h2 : s ∉ falsyTokens) : parseAvailable s = none := by
  simp [parseAvailable, h1, h2]

lemma getStr_ok_isSome (data : Payload) (k s : String)
    (h : getStr data k = .ok s) : (data.lookup k).isSome := by
  unfold getStr at h
  cases hl : data.lookup k <;> rw [hl] at h
  · exact Except.noConfusion h
  · rfl

lemma getPrice_ok_isSome (data : Payload) (s : String)
    (h : getPrice data = .ok s) : (data.lookup "price").isSome := by
  unfold getPrice at h
  cases hl : data.lookup "price" <;> rw [hl] at h
  · exact Except.noConfusion h
  · rfl

lemma getBool_ok_isSome (data : Payload) (k : String) (b : Bool)
    (h : getBool data k = .ok b) : (data.lookup k).isSome := by
  unfold getBool at h
  cases hl : data.lookup k <;> rw [hl] at h
  · exact Except.noConfusion h
  · rfl

lemma getCategory_ok_isSome (data : Payload) (c : Category)
    (h : getCategory data = .ok c) : (data.lookup "category").isSome := by
  unfold getCategory at h
  cases hl : data.lookup "category" <;> rw [hl] at h
  · exact Except.noConfusion h
  · rfl

/-- Inversion of a successful deserialization: the entity's id is kept and
every field was read from the payload. -/
lemma deserialize_ok_fields (p pd : Product) (data : Payload)
    (h : deserialize p data = .ok pd) :
    pd.id = p.id ∧
    getStr data "name" = .ok pd.name ∧
    getStr data "description" = .ok pd.description ∧
    getPrice data = .ok pd.price ∧
    getBool data "available" = .ok pd.available ∧
    getCategory data = .ok pd.category := by
  unfold deserialize at h
  cases h1 : getStr data "name" <;> rw [h1] at h
  case error => exact Except.noConfusion h
  case ok name =>
  cases h2 : getStr data "description" <;> rw [h2] at h
  case error => exact Except.noConfusion h
  case ok description =>
  cases h3 : getPrice data <;> rw [h3] at h
  case error => exact Except.noConfusion h
  case ok price =>
  cases h4 : getBool data "available" <;> rw [h4] at h
  case error => exact Except.noConfusion h
  case ok available =>
  cases h5 : getCategory data <;> rw [h5] at h
  case error => exact Except.noConfusion h
  case ok category =>
  cases h
  exact ⟨rfl, rfl, rfl, rfl, rfl, rfl⟩

/-- A payload that omits any required key cannot deserialize. -/
lemma deserialize_missing_err (p : Product) (data : Payload) (k : String)
    (hk : k ∈ requiredKeys) (hnone : data.lookup k = none) :
    ∃ e, deserialize p data = .error e := by
  cases hd : deserialize p data with
  | error e => exact ⟨e, rfl⟩
  | ok pd =>
      obtain ⟨-, h1, h2, h3, h4, h5⟩ := deserialize_ok_fields p pd data hd
      exfalso
      simp only [requiredKeys, List.mem_cons, List.not_mem_nil, or_false] at hk
      rcases hk with rfl | rfl | rfl | rfl | rfl
      · exact absurd (getStr_ok_isSome _ _ _ h1) (by simp [hnone])
      · exact absurd (getStr_ok_isSome _ _ _ h2) (by simp [hnone])
      · exact absurd (getPrice_ok_isSome _ _ h3) (by simp [hnone])
      · exact absurd (getBool_ok_isSome _ _ _ h4) (by simp [hnone])
      · exact absurd (getCategory_ok_isSome _ _ h5) (by simp [hnone])

lemma filterByName_dropEmpty (name : Option String) (ps : List Product) :
    filterByName (dropEmpty name) ps = filterByName name ps := by
  cases name with
  | none => rfl
  | some s =>
      by_cases h : s = ""
      · subst h; rfl
      · simp [dropEmpty, h]

lemma filterByCategory_dropEmpty (c : Option String) (ps : List Product) :
    filterByCategory (dropEmpty c) ps = filterByCategory c ps := by
  cases c with
  | none => rfl
  | some s =>
      by_cases h : s = ""
      · subst h; rfl
      · simp [dropEmpty, h]

lemma filterByAvailable_dropEmpty (a : Option String) (ps : List Product) :
    filterByAvailable (dropEmpty a) ps = filterByAvailable a ps := by
  cases a with
  | none => rfl
  | some s =>
      by_cases h : s = ""
      · subst h; rfl
      · simp [dropEmpty, h]

/-- Control-flow of `update_product` once the id resolves and the JSON
content type is supplied: everything hinges on deserialization. -/
lemma update_product_found (store : Store) (pid : Nat) (p : Product)
    (data : Payload) (hp : store.find pid = some p) :
    update_product store pid (some "application/json") data =
      match deserialize p data with
      | .error e => (store, Response.badRequest e.message)
      | .ok updated =>
          (store.updateProduct updated, Response.okJson updated.serialize) := by
  unfold update_product
  rw [hp]
  rfl

/-- After deleting an id, that id no longer resolves. -/
lemma find_deleteProduct (s : Store) (pid : Nat) :
    (s.deleteProduct pid).find pid = none := by
  unfold Store.deleteProduct Store.find
  rw [List.find?_eq_none]
  intro x hx
  rw [List.mem_filter] at hx
  simpa using hx.2

/-! The claims. -/

/-- C4: for every GET /products request supplying any subset of the name,
category and available query parameters with valid values, the returned
sequence is exactly the products from the full listing that satisfy every
supplied criterion simultaneously (conjunctive AND, name compared by exact
text equality as written in `specMatches`). -/
theorem claim_C4 (store : Store) (q : ListQuery)
    (hc : categoryValid q.category = true)
    (ha : availableValid q.available = true) :
    get_products store q =
      Response.okJson (.arr ((store.products.filter (specMatches q)).map
        Product.serialize)) :=
  get_products_eq_filter store q hc ha

/-- Witness for C4 at a concrete store and query. -/
theorem claim_C4_witness :
    categoryValid (some "cloths") = true ∧
    availableValid (some "True") = true ∧
    get_products sampleStore ⟨some "Fedora", some "cloths", some "True"⟩ =
      Response.okJson (.arr ((sampleStore.products.filter
        (specMatches ⟨some "Fedora", some "cloths", some "True"⟩)).map
        Product.serialize)) :=
  ⟨by decide, by decide,
    claim_C4 sampleStore ⟨some "Fedora", some "cloths", some "True"⟩
      (by decide) (by decide)⟩

/-- C5: a GET /products request with no query parameters answers 200 with
the serialization of every stored product, and valid filter criteria that
match no product answer 200 with an empty sequence, never an error
status. -/
theorem claim_C5 (store : Store) (q : ListQuery) :
    (get_products store ⟨none, none, none⟩ =
      Response.okJson (.arr (store.products.map Product.serialize)))
    ∧ (categoryValid q.category = true → availableValid q.available = true →
        store.products.filter (specMatches q) = [] →
        get_products store q = Response.okJson (.arr [])) := by
  constructor
  · rfl
  · intro hc ha hempty
    rw [get_products_eq_filter store q hc ha, hempty]
    rfl

/-- Witness for C5: a name that no stored product carries gives 200 with an
empty sequence. -/
theorem claim_C5_witness :
    categoryValid (none : Option String) = true ∧
    availableValid (none : Option String) = true ∧
    sampleStore.products.filter (specMatches ⟨some "NoSuch", none, none⟩) = [] ∧
    get_products sampleStore ⟨some "NoSuch", none, none⟩ =
      Response.okJson (.arr []) :=
  ⟨rfl, rfl, by decide,
    (claim_C5 sampleStore ⟨some "NoSuch", none, none⟩).2 rfl rfl (by decide)⟩

/-- C7: GET /products/{id} answers 200 with the product's serialization
when the id resolves and 404 when it does not. -/
theorem claim_C7 (store : Store) (pid : Nat) :
    (∀ p, store.find pid = some p →
      get_product store pid = Response.okJson p.serialize)
    ∧ (store.find pid = none → (get_product store pid).status = 404) := by
  constructor
  · intro p hp
    unfold get_product
    rw [hp]
  · intro hp
    unfold get_product
    rw [hp]
    rfl

/-- Witness for C7 at a concrete store, a resolving and a non-resolving
id. -/
theorem claim_C7_witness :
    sampleStore.find 1 = some fedora ∧
    get_product sampleStore 1 = Response.okJson fedora.serialize ∧
    sampleStore.find 99 = none ∧
    (get_product sampleStore 99).status = 404 :=
  ⟨rfl, (claim_C7 sampleStore 1).1 fedora rfl, rfl,
    (claim_C7 sampleStore 99).2 rfl⟩

/-- C8: DELETE /products/{id} answers 404 when the id does not resolve,
otherwise removes the product, answers 204 with an empty body, and a
subsequent GET for the same id answers 404. -/
theorem claim_C8 (store : Store) (pid : Nat) :
    (store.find pid = none → (delete_product store pid).2.status = 404)
    ∧ (∀ p, store.find pid = some p →
        (delete_product store pid).2 =
          { status := 204, body := none, location := none } ∧
        (get_product (delete_product store pid).1 pid).status = 404) := by
  constructor
  · intro hp
    unfold delete_product
    rw [hp]
    rfl
  · intro p hp
    unfold delete_product
    rw [hp]
    refine ⟨rfl, ?_⟩
    dsimp only
    unfold get_product
    rw [find_deleteProduct]
    rfl

/-- Witness for C8: deleting a stored id answers 204 and the id stops
resolving; deleting an unknown id answers 404. -/
theorem claim_C8_witness :
    sampleStore.find 1 = some fedora ∧
    (delete_product sampleStore 1).2 =
      { status := 204, body := none, location := none } ∧
    (get_product (delete_product sampleStore 1).1 1).status = 404 ∧
    sampleStore.find 99 = none ∧
    (delete_product sampleStore 99).2.status = 404 :=
  ⟨rfl, ((claim_C8 sampleStore 1).2 fedora rfl).1,
    ((claim_C8 sampleStore 1).2 fedora rfl).2, rfl,
    (claim_C8 sampleStore 99).1 rfl⟩

/-- C10: a name, category or available query parameter supplied with an
empty-string value is treated as absent, because each filter branch is
guarded by the parameter's truthiness; in particular an empty available
token does not give 400. -/
theorem claim_C10 (store : Store) (q : ListQuery) :
    get_products store
        { name := dropEmpty q.name, category := dropEmpty q.category,
          available := dropEmpty q.available } = get_products store q
    ∧ (get_products store ⟨none, none, some ""⟩).status = 200
    ∧ (get_products store ⟨some "", some "", some ""⟩).status = 200 := by
  refine ⟨?_, rfl, rfl⟩
  unfold get_products
  dsimp only
  simp only [filterByName_dropEmpty, filterByCategory_dropEmpty,
    filterByAvailable_dropEmpty]

/-- C1: a PUT /products/{id} request whose id resolves, whose Content-Type
is application/json and whose JSON body omits a required Product field (or
fails deserialization with a validation failure for any other reason, such
as a wrong-typed field) answers 400, not 500 and not 200. -/
theorem claim_C1 (store : Store) (pid : Nat) (data : Payload) (p : Product)
    (hfind : store.find pid = some p)
    (hbad : (∃ k ∈ requiredKeys, data.lookup k = none) ∨
            ∃ e, deserialize p data = .error e) :
    (update_product store pid (some "application/json") data).2.status = 400 ∧
    (update_product store pid (some "application/json") data).2.status ≠ 500 ∧
    (update_product store pid (some "application/json") data).2.status ≠ 200 := by
  obtain ⟨e, he⟩ : ∃ e, deserialize p data = .error e := by
    rcases hbad with ⟨k, hk, hnone⟩ | he
    · exact deserialize_missing_err p data k hk hnone
    · exact he
  have hupd : update_product store pid (some "application/json") data =
      (store, Response.badRequest e.message) := by
    rw [update_product_found store pid p data hfind, he]
  rw [hupd]
  have h45 : (400 : Nat) ≠ 500 := by decide
  have h42 : (400 : Nat) ≠ 200 := by decide
  exact ⟨rfl, h45, h42⟩

/-- Witness for C1: updating a stored product with a payload that omits the
name field answers 400. -/
theorem claim_C1_witness :
    sampleStore.find 1 = some fedora ∧
    "name" ∈ requiredKeys ∧ noNamePayload.lookup "name" = none ∧
    (update_product sampleStore 1 (some "application/json")
      noNamePayload).2.status = 400 :=
  ⟨rfl, by decide, rfl,
    (claim_C1 sampleStore 1 noNamePayload fedora rfl
      (Or.inl ⟨"name", by decide, rfl⟩)).1⟩

/-- C2: a GET /products request supplying a non-empty available token whose
lower-casing is truthy narrows the listing to available products, a falsy
token narrows it to unavailable products, and any other token answers
400. -/
theorem claim_C2 (store : Store) (q : ListQuery) (av : String)
    (hq : q.available = some av) (hne : av ≠ "")
    (hc : categoryValid q.category = true) :
    (strLower av ∈ truthyTokens →
      get_products store q = Response.okJson (.arr
        ((((store.products.filter (nameMatches q.name)).filter
            (catMatches q.category)).filter
            (fun p => p.available == true)).map Product.serialize)))
    ∧ (strLower av ∈ falsyTokens →
      get_products store q = Response.okJson (.arr
        ((((store.products.filter (nameMatches q.name)).filter
            (catMatches q.category)).filter
            (fun p => p.available == false)).map Product.serialize)))
    ∧ (strLower av ∉ truthyTokens → strLower av ∉ falsyTokens →
        (get_products store q).status = 400) := by
  have hmain : ∀ b, parseAvailable (strLower av) = some b →
      get_products store q = Response.okJson (.arr
        ((((store.products.filter (nameMatches q.name)).filter
            (catMatches q.category)).filter
            (fun p => p.available == b)).map Product.serialize)) := by
    intro b hb
    unfold get_products
    rw [filterByName_eq, filterByCategory_ok _ _ hc]
    dsimp only
    rw [hq]
    unfold filterByAvailable
    dsimp only
    rw [if_neg hne, hb]
    rfl
  have hbad : parseAvailable (strLower av) = none →
      (get_products store q).status = 400 := by
    intro hb
    unfold get_products
    rw [filterByName_eq, filterByCategory_ok _ _ hc]
    dsimp only
    rw [hq]
    unfold filterByAvailable
    dsimp only
    rw [if_neg hne, hb]
    rfl
  refine ⟨fun h => hmain true (parseAvailable_truthy _ h),
    fun h => hmain false (parseAvailable_falsy _ h),
    fun h1 h2 => hbad (parseAvailable_reject _ h1 h2)⟩

/-- Witness for C2: the token YES narrows the sample listing to available
products, and the token maybe answers 400. -/
theorem claim_C2_witness :
    strLower "YES" ∈ truthyTokens ∧
    get_products sampleStore ⟨none, none, some "YES"⟩ =
      Response.okJson (.arr
        ((((sampleStore.products.filter (nameMatches none)).filter
            (catMatches none)).filter
            (fun p => p.available == true)).map Product.serialize)) ∧
    strLower "maybe" ∉ truthyTokens ∧ strLower "maybe" ∉ falsyTokens ∧
    (get_products sampleStore ⟨none, none, some "maybe"⟩).status = 400 :=
  ⟨by decide,
    (claim_C2 sampleStore ⟨none, none, some "YES"⟩ "YES" rfl (by decide)
      rfl).1 (by decide),
    by decide, by decide,
    ((claim_C2 sampleStore ⟨none, none, some "maybe"⟩ "maybe" rfl (by decide)
      rfl).2).2 (by decide) (by decide)⟩

/-- C3: a GET /products request supplying a non-empty category token
upper-cases the token before lookup; a token resolving to an enumeration
member narrows the listing to that category, and an unresolvable token
answers 400, never an empty 200 result. -/
theorem claim_C3 (store : Store) (q : ListQuery) (c : String)
    (hq : q.category = some c) (hne : c ≠ "") :
    (∀ cat, categoryFromName? (strUpper c) = some cat →
      availableValid q.available = true →
      get_products store q = Response.okJson (.arr
        ((((store.products.filter (nameMatches q.name)).filter
            (fun p => p.category == cat)).filter
            (availMatches q.available)).map Product.serialize)))
    ∧ (categoryFromName? (strUpper c) = none →
        (get_products store q).status = 400 ∧
        (get_products store q).status ≠ 200) := by
  constructor
  · intro cat hcat ha
    unfold get_products
    rw [filterByName_eq, hq]
    unfold filterByCategory
    dsimp only
    rw [if_neg hne, hcat]
    dsimp only
    rw [filterByAvailable_ok _ _ ha]
    rfl
  · intro hcat
    have hbr : get_products store q =
        Response.badRequest ("Invalid category: " ++ c) := by
      unfold get_products
      rw [filterByName_eq, hq]
      unfold filterByCategory
      dsimp only
      rw [if_neg hne, hcat]
    rw [hbr]
    have h42 : (400 : Nat) ≠ 200 := by decide
    exact ⟨rfl, h42⟩

/-- Witness for C3: the token cloths (lower case) resolves after
upper-casing and narrows the sample listing; the token NONEXISTENT answers
400. -/
theorem claim_C3_witness :
    categoryFromName? (strUpper "cloths") = some Category.CLOTHS ∧
    get_products sampleStore ⟨none, some "cloths", none⟩ =
      Response.okJson (.arr
        ((((sampleStore.products.filter (nameMatches none)).filter
            (fun p => p.category == Category.CLOTHS)).filter
            (availMatches none)).map Product.serialize)) ∧
    categoryFromName? (strUpper "NONEXISTENT") = none ∧
    (get_products sampleStore ⟨none, some "NONEXISTENT", none⟩).status = 400 :=
  ⟨by decide,
    (claim_C3 sampleStore ⟨none, some "cloths", none⟩ "cloths" rfl
      (by decide)).1 Category.CLOTHS (by decide) rfl,
    by decide,
    ((claim_C3 sampleStore ⟨none, some "NONEXISTENT", none⟩ "NONEXISTENT" rfl
      (by decide)).2 (by decide)).1⟩

/-- C6: a POST /products request with a missing or wrong Content-Type
header answers 415 and creates nothing; with the application/json header
and a valid payload it answers 201 with the serialized entity and a
Location header pointing to the new entity's read endpoint. -/
theorem claim_C6 (store : Store) (hdr : Option String) (data : Payload) :
    (hdr ≠ some "application/json" →
      create_products store hdr data = (store, Response.unsupportedMedia))
    ∧ (∀ pd, deserialize Product.empty data = .ok pd →
        create_products store (some "application/json") data =
          ({ products := store.products ++ [{ pd with id := some store.nextId }],
             nextId := store.nextId + 1 },
           { status := 201,
             body := some (Product.serialize { pd with id := some store.nextId }),
             location := some ("/products/" ++ toString store.nextId) })) := by
  constructor
  · intro h
    have hct : check_content_type hdr "application/json" = false := by
      cases hdr with
      | none => rfl
      | some s =>
          have hs : s ≠ "application/json" := fun hs => h (by rw [hs])
          simp [check_content_type, hs]
    unfold create_products
    rw [hct]
    rfl
  · intro pd hpd
    have hct : check_content_type (some "application/json") "application/json"
        = true := by decide
    unfold create_products
    rw [hct, hpd]
    rfl

/-- Witness for C6: a plain-text Content-Type answers 415 and leaves the
sample store unchanged; the JSON Content-Type with a full valid payload
answers 201 with a Location header for the new id. -/
theorem claim_C6_witness :
    (some "text/plain" ≠ some "application/json") ∧
    create_products sampleStore (some "text/plain") fullPayload =
      (sampleStore, Response.unsupportedMedia) ∧
    deserialize Product.empty fullPayload = .ok bowler ∧
    create_products sampleStore (some "application/json") fullPayload =
      ({ products := sampleStore.products ++
          [{ bowler with id := some sampleStore.nextId }],
         nextId := sampleStore.nextId + 1 },
       { status := 201,
         body := some (Product.serialize
           { bowler with id := some sampleStore.nextId }),
         location := some ("/products/" ++ toString sampleStore.nextId) }) :=
  ⟨by decide,
    (claim_C6 sampleStore (some "text/plain") fullPayload).1 (by decide),
    rfl,
    (claim_C6 sampleStore (some "application/json") fullPayload).2 bowler rfl⟩

/-- C9: a PUT /products/{id} request with an existing id, JSON content type
and a full valid payload answers 200 with the serialized entity whose id
equals the original id while the other fields take the deserialized
payload's values; and the not-found check precedes the content-type check,
so an unknown id answers 404 for every Content-Type header. -/
theorem claim_C9 (store : Store) (pid : Nat) (data : Payload) :
    (∀ p pd, store.find pid = some p → deserialize p data = .ok pd →
      update_product store pid (some "application/json") data =
        (store.updateProduct pd, Response.okJson pd.serialize) ∧
      pd.id = p.id)
    ∧ (∀ hdr, store.find pid = none →
        (update_product store pid hdr data).2.status = 404) := by
  constructor
  · intro p pd hp hd
    constructor
    · rw [update_product_found store pid p data hp, hd]
    · exact (deserialize_ok_fields p pd data hd).1
  · intro hdr hp
    unfold update_product
    rw [hp]
    rfl

/-- Witness for C9: updating the sample product 1 with a full valid payload
answers 200 with id 1 kept, and an unknown id answers 404 even under a
wrong Content-Type. -/
theorem claim_C9_witness :
    sampleStore.find 1 = some fedora ∧
    deserialize fedora fullPayload = .ok updatedFedora ∧
    update_product sampleStore 1 (some "application/json") fullPayload =
      (sampleStore.updateProduct updatedFedora,
        Response.okJson updatedFedora.serialize) ∧
    updatedFedora.id = fedora.id ∧
    sampleStore.find 99 = none ∧
    (update_product sampleStore 99 (some "text/plain") fullPayload).2.status
      = 404 :=
  ⟨rfl, rfl,
    ((claim_C9 sampleStore 1 fullPayload).1 fedora updatedFedora rfl rfl).1,
    ((claim_C9 sampleStore 1 fullPayload).1 fedora updatedFedora rfl rfl).2,
    rfl,
    (claim_C9 sampleStore 99 fullPayload).2 (some "text/plain") rfl⟩

end ProductStore
